import Mathlib

/-!
Verification of the command-invocation layer of aioSMART
(`src/aioSMART/smartctl.py`), a Python wrapper around the `smartctl`
disk-diagnostics tool.

The `Smartctl` class is embedded shallowly:
- the instance state (`smartctl_path`, `options`, `_sudo`) becomes the
  structure `Smartctl`;
- the external environment (platform, process spawning, JSON parsing)
  becomes an explicit `World` record, since the Python code reaches it
  through `os.name`, `asyncio.create_subprocess_exec` and `json.loads`;
- async methods are pure functions of the world and the state, returning
  `Except SmartErr` where the Python method can raise;
- methods that could mutate `self` return the new state explicitly
  (`generic_call` returns the pair of its result and the state it leaves
  behind, which the source never mutates).
-/

/-- Decoded JSON documents (the value space of `json.loads`).  The
structure of the payload is irrelevant to the invocation layer; only the
empty document `obj []` (Python `{}`) is mentioned by name in the code. -/
inductive Json where
  | null : Json
  | bool : Bool → Json
  | num : Int → Json
  | str : String → Json
  | arr : List Json → Json
  | obj : List (String × Json) → Json

/-- Errors a `Smartctl` method can raise.
`fileNotFound` is `FileNotFoundError` (empty `smartctl_path`),
`launchError` is the OS failing to create the subprocess,
`decodeError` is `json.JSONDecodeError` — note that the Python exception
carries the offending document string, not the process exit status, and
`typeError` is Python `TypeError` (raised by `info`, which subscripts a
coroutine object before awaiting it). -/
inductive SmartErr where
  | fileNotFound : String → SmartErr
  | launchError : SmartErr
  | decodeError : String → SmartErr
  | typeError : String → SmartErr
deriving DecidableEq

/-- The environment of a call: whether `os.name == 'posix'`, what a
spawned process does (`none` models a process-launch failure, otherwise
the captured stdout text and the exit status), and what `json.loads`
does on a given stdout text (`none` models a decode failure). -/
structure World where
  posix : Bool
  spawn : List String → Option (String × Int)
  parse : String → Option Json

/-- The `Smartctl` instance state: the executable path (empty string for
an unset path, which is falsy in Python), the persistent option list and
the normalized sudo setting stored in `self._sudo`. -/
structure Smartctl where
  smartctl_path : String
  options : List String
  _sudo : Option (List String)

/-- Python values one can assign to the `sudo` property
(`Union[bool, List[str]]` in the type hint; `None` and integers also
flow through the falsy branch of the setter). -/
inductive PyVal where
  | bool : Bool → PyVal
  | list : List String → PyVal
  | none : PyVal
  | int : Int → PyVal

/-- Python truthiness of a `PyVal`. -/
def PyVal.truthy : PyVal → Bool
  | .bool b => b
  | .list l => !l.isEmpty
  | .none => false
  | .int n => n != 0

/-- The `sudo` property setter (smartctl.py lines 73–85): a non-list
truthy value normalizes to `['-E']`, a non-list falsy value to `None`;
a list is stored as given (even when empty).  The non-posix warning is
log-only and does not change the stored value. -/
def Smartctl.sudo_set (s : Smartctl) (v : PyVal) : Smartctl :=
  match v with
  | .list l => { s with _sudo := some l }
  | v => if v.truthy then { s with _sudo := some ["-E"] } else { s with _sudo := none }

/-- `add_options` (smartctl.py lines 87–93): appends to the persistent
option list. -/
def Smartctl.add_options (s : Smartctl) (new_options : List String) : Smartctl :=
  { s with options := s.options ++ new_options }

/-- Modelled from the spec: `any_in` comes from `aioSMART/utils.py`,
which is not in the sources; per the spec the machine-readable-output
flag is appended "only if \[the list] does not already request one of
its recognized spellings", so `any_in l items` holds when any of the
given items is an element of the list. -/
def any_in (l : List String) (items : List String) : Bool :=
  items.any (fun i => l.contains i)

/-- Whether a list already requests JSON output with one of the two
recognized spellings, as tested in `_exec` (line 151). -/
def hasJsonFlag (l : List String) : Bool :=
  any_in l ["-j", "--json"]

/-- The sudo part of the command vector built by `generic_call`
(lines 109–111): on posix with sudo enabled, `['sudo'] + self.sudo`,
otherwise nothing. -/
def sudoPart (posix : Bool) (s : Smartctl) : List String :=
  if posix then
    match s._sudo with
    | some su => "sudo" :: su
    | none => []
  else []

/-- The command vector assembled by `generic_call` (lines 108–118):
sudo part, executable path, persistent options when `pass_options`,
then the call parameters. -/
def buildCmd (posix : Bool) (s : Smartctl) (params : List String) (pass_options : Bool) : List String :=
  sudoPart posix s ++ [s.smartctl_path] ++ (if pass_options then s.options else []) ++ params

/-- The JSON-flag step of `_exec` (lines 151–152): append `-j` unless
the command vector already contains `-j` or `--json`. -/
def withJ (cmd : List String) : List String :=
  if hasJsonFlag cmd then cmd else cmd ++ ["-j"]

/-- `_exec` (lines 142–157): ensure the JSON flag, spawn the process,
decode stdout.  A launch failure raises; stdout that is not valid JSON
raises `json.JSONDecodeError`, which carries the offending text but not
the exit status. -/
def Smartctl._exec (w : World) (cmd : List String) : Except SmartErr (Json × Int) :=
  let cmd := withJ cmd
  match w.spawn cmd with
  | Option.none => .error .launchError
  | some (out, rc) =>
    match w.parse out with
    | Option.none => .error (.decodeError out)
    | some d => .ok (d, rc)

/-- `generic_call` (lines 95–122): raise `FileNotFoundError` on an
unset path, otherwise build the command and run `_exec`.  The method
never assigns to `self`, so the state it returns is the input state. -/
def Smartctl.generic_call (w : World) (s : Smartctl) (params : List String) (pass_options : Bool) : Except SmartErr (Json × Int) × Smartctl :=
  if s.smartctl_path = "" then
    (.error (.fileNotFound "Command smartctl doesn\x27t exist!"), s)
  else
    (Smartctl._exec w (buildCmd w.posix s params pass_options), s)

/-- `try_generic_call` (lines 124–140): delegate to `generic_call`, and
on any exception return `({}, 1)` instead. -/
def Smartctl.try_generic_call (w : World) (s : Smartctl) (params : List String) (pass_options : Bool) : (Json × Int) × Smartctl :=
  match Smartctl.generic_call w s params pass_options with
  | (.ok r, s') => (r, s')
  | (.error _, s') => ((Json.obj [], 1), s')

/-- `scan` (lines 159–165): `generic_call(['--scan-open'])`, document
component only. -/
def Smartctl.scan (w : World) (s : Smartctl) : Except SmartErr Json × Smartctl :=
  let (r, s') := Smartctl.generic_call w s ["--scan-open"] false
  (r.map (fun p => p.1), s')

/-- `health` (lines 167–180): `['-d', interface]?` + `['--health',
disk]`, document component only. -/
def Smartctl.health (w : World) (s : Smartctl) (disk : String) (interface : Option String) : Except SmartErr Json × Smartctl :=
  let params := match interface with
    | some i => ["-d", i, "--health", disk]
    | Option.none => ["--health", disk]
  let (r, s') := Smartctl.generic_call w s params false
  (r.map (fun p => p.1), s')

/-- `info` (lines 182–196).  The source reads
`await (self.generic_call(...))[0]`: the parenthesized expression is the
un-awaited coroutine object, and subscripting it raises `TypeError`
before the coroutine body ever runs — so `info` raises unconditionally,
in either branch, without touching the path check or the process. -/
def Smartctl.info (_w : World) (s : Smartctl) (_disk : String) (_interface : Option String) : Except SmartErr Json × Smartctl :=
  (.error (.typeError "coroutine object is not subscriptable"), s)

/-- `all` (lines 198–212): `['-d', interface]?` + `['--all', disk]`,
persistent options passed, document component only.  Unlike `info`,
this method awaits before subscripting, so it is well formed. -/
def Smartctl.all (w : World) (s : Smartctl) (disk : String) (interface : Option String) : Except SmartErr Json × Smartctl :=
  let params := match interface with
    | some i => ["-d", i, "--all", disk]
    | Option.none => ["--all", disk]
  let (r, s') := Smartctl.generic_call w s params true
  (r.map (fun p => p.1), s')

/-- `test_stop` (lines 214–224): `['-d', disk_type, '-X', disk]`, exit
status component only. -/
def Smartctl.test_stop (w : World) (s : Smartctl) (disk_type : String) (disk : String) : Except SmartErr Int × Smartctl :=
  let (r, s') := Smartctl.generic_call w s ["-d", disk_type, "-X", disk] false
  (r.map (fun p => p.2), s')

/-- `test_start` (lines 226–237): `['-d', disk_type, '-t', test_type,
disk]`, returning the full (document, status) pair. -/
def Smartctl.test_start (w : World) (s : Smartctl) (disk_type : String) (test_type : String) (disk : String) : Except SmartErr (Json × Int) × Smartctl :=
  Smartctl.generic_call w s ["-d", disk_type, "-t", test_type, disk] false

/-! ## Concrete environments and states used by witnesses -/

/-- A world where spawning and parsing both fail. -/
def w0 : World := ⟨false, fun _ => Option.none, fun _ => Option.none⟩

/-- A world where every spawn succeeds with empty-object stdout and
exit status 0, and parsing succeeds with the empty document. -/
def wOk : World := ⟨false, fun _ => some ("\x7b\x7d", 0), fun _ => some (Json.obj [])⟩

/-- A world where every spawn yields unparseable stdout and exit
status 0. -/
def wBad0 : World := ⟨false, fun _ => some ("garbage", 0), fun _ => Option.none⟩

/-- A world identical to `wBad0` except that the process exits with
status 2. -/
def wBad2 : World := ⟨false, fun _ => some ("garbage", 2), fun _ => Option.none⟩

/-- A `Smartctl` whose executable path is unset. -/
def sEmpty : Smartctl := ⟨"", [], Option.none⟩

/-- A `Smartctl` with a normal path, no persistent options, no sudo. -/
def sDef : Smartctl := ⟨"/usr/sbin/smartctl", [], Option.none⟩

/-! ## Helper lemmas -/

/-- `hasJsonFlag` spelt out as element tests for the two spellings. -/
theorem hasJsonFlag_eq (l : List String) :
    hasJsonFlag l = (l.contains "-j" || l.contains "--json") := by
  simp [hasJsonFlag, any_in]

/-- `List.contains` distributes over append. -/
theorem contains_append (l1 l2 : List String) (a : String) :
    (l1 ++ l2).contains a = (l1.contains a || l2.contains a) := by
  induction l1 with
  | nil => rfl
  | cons x xs ih => simp [List.contains_cons, ih, Bool.or_assoc]

/-- `hasJsonFlag` distributes over list append. -/
theorem hasJsonFlag_append (l1 l2 : List String) :
    hasJsonFlag (l1 ++ l2) = (hasJsonFlag l1 || hasJsonFlag l2) := by
  simp only [hasJsonFlag_eq, contains_append]
  cases l1.contains "-j" <;> cases l2.contains "-j" <;>
    cases l1.contains "--json" <;> cases l2.contains "--json" <;> rfl

/-! ## Claims -/

/-- C1, counterexample: the JSON-flag check of `_exec` scans the whole
command vector, not only `params`.  With persistent options `["-j"]`
passed and `params = ["x"]` (which requests no JSON output), no flag is
appended, contradicting the claim that exactly one flag is appended and
is the last argument. -/
theorem C1_counterexample :
    ¬ (hasJsonFlag ["x"] = false →
      withJ (buildCmd false ⟨"p", ["-j"], Option.none⟩ ["x"] true)
        = buildCmd false ⟨"p", ["-j"], Option.none⟩ ["x"] true ++ ["-j"]) := by
  decide

/-- C1, amended: the flag test is over the whole built command.  If the
built command already contains `-j` or `--json`, nothing is appended;
otherwise exactly one `-j` is appended as the last argument; in either
case the vector handed to the process requests machine-readable
output. -/
theorem C1_json_flag_discipline (posix : Bool) (s : Smartctl) (params : List String) (pass_options : Bool) :
    (hasJsonFlag (buildCmd posix s params pass_options) = true →
      withJ (buildCmd posix s params pass_options) = buildCmd posix s params pass_options) ∧
    (hasJsonFlag (buildCmd posix s params pass_options) = false →
      withJ (buildCmd posix s params pass_options)
        = buildCmd posix s params pass_options ++ ["-j"]) ∧
    hasJsonFlag (withJ (buildCmd posix s params pass_options)) = true := by
  refine ⟨fun h => by simp [withJ, h], fun h => by simp [withJ, h], ?_⟩
  by_cases h : hasJsonFlag (buildCmd posix s params pass_options) = true
  · simp [withJ, h]
  · simp only [Bool.not_eq_true] at h
    simp [withJ, h, hasJsonFlag_append, hasJsonFlag_eq]

/-- C1, witness: with no flag anywhere in the command, `-j` is appended
last. -/
theorem C1_json_flag_witness :
    withJ (buildCmd false sDef ["x"] false) = buildCmd false sDef ["x"] false ++ ["-j"] :=
  (C1_json_flag_discipline false sDef ["x"] false).2.1 (by decide)

/-- C2: `try_generic_call` is total (its type carries no error), and
whenever `generic_call` fails with any error it returns exactly the
empty document paired with exit status 1; successes pass through
unchanged. -/
theorem C2_tryInvoke_total_fallback (w : World) (s : Smartctl) (params : List String) (pass_options : Bool) :
    (∀ e s', Smartctl.generic_call w s params pass_options = (.error e, s') →
      Smartctl.try_generic_call w s params pass_options = ((Json.obj [], 1), s')) ∧
    (∀ r s', Smartctl.generic_call w s params pass_options = (.ok r, s') →
      Smartctl.try_generic_call w s params pass_options = (r, s')) := by
  unfold Smartctl.try_generic_call
  exact ⟨fun e s' h => by rw [h], fun r s' h => by rw [h]⟩

/-- C2, witness: with an unset path, `generic_call` fails and
`try_generic_call` gives `({}, 1)`. -/
theorem C2_tryInvoke_witness :
    Smartctl.try_generic_call w0 sEmpty [] false = ((Json.obj [], 1), sEmpty) :=
  (C2_tryInvoke_total_fallback w0 sEmpty [] false).1
    (.fileNotFound "Command smartctl doesn\x27t exist!") sEmpty rfl

/-- C3 (code_bug evaluation): with an unset executable path,
`generic_call` and the convenience operations that await it fail with
the tool-not-found error uniformly in the world — no spawn result is
ever consulted, so no process side effect is observable.  `info`,
however, raises `TypeError` instead of the tool-not-found error,
because line 194 subscripts the un-awaited coroutine before the path
check can run. -/
theorem C3_empty_path_behavior (w : World) (params : List String) (pass_options : Bool)
    (disk dt ty : String) (iface : Option String) :
    Smartctl.generic_call w sEmpty params pass_options
      = (.error (.fileNotFound "Command smartctl doesn\x27t exist!"), sEmpty) ∧
    Smartctl.scan w sEmpty
      = (.error (.fileNotFound "Command smartctl doesn\x27t exist!"), sEmpty) ∧
    Smartctl.health w sEmpty disk iface
      = (.error (.fileNotFound "Command smartctl doesn\x27t exist!"), sEmpty) ∧
    Smartctl.all w sEmpty disk iface
      = (.error (.fileNotFound "Command smartctl doesn\x27t exist!"), sEmpty) ∧
    Smartctl.test_stop w sEmpty dt disk
      = (.error (.fileNotFound "Command smartctl doesn\x27t exist!"), sEmpty) ∧
    Smartctl.test_start w sEmpty dt ty disk
      = (.error (.fileNotFound "Command smartctl doesn\x27t exist!"), sEmpty) ∧
    Smartctl.info w sEmpty disk iface
      = (.error (.typeError "coroutine object is not subscriptable"), sEmpty) := by
  refine ⟨rfl, rfl, ?_, ?_, rfl, rfl, rfl⟩ <;> cases iface <;> rfl

/-- C4: when escalation is enabled on posix, the escalation arguments
form the prefix `sudo` + args, strictly before the executable path and
never intermixed with later arguments; when disabled, no escalation
arguments appear on any platform; the custom mode `['-u','svc']` yields
a command beginning `sudo -u svc <path>`. -/
theorem C4_sudo_precedes_path (s : Smartctl) (params : List String) (pass_options : Bool)
    (su : List String) (posix : Bool) :
    (s._sudo = some su →
      buildCmd true s params pass_options
        = "sudo" :: (su ++ [s.smartctl_path]
            ++ (if pass_options then s.options else []) ++ params)) ∧
    (s._sudo = Option.none →
      buildCmd posix s params pass_options
        = [s.smartctl_path] ++ (if pass_options then s.options else []) ++ params) ∧
    buildCmd true (s.sudo_set (.list ["-u", "svc"])) params pass_options
      = "sudo" :: "-u" :: "svc" :: ([s.smartctl_path]
          ++ (if pass_options then s.options else []) ++ params) := by
  refine ⟨fun h => ?_, fun h => ?_, ?_⟩
  · simp [buildCmd, sudoPart, h]
  · cases posix <;> simp [buildCmd, sudoPart, h]
  · simp [buildCmd, sudoPart, Smartctl.sudo_set]

/-- C4, witness: enabled custom escalation and disabled escalation, at
concrete states. -/
theorem C4_sudo_witness :
    buildCmd true ⟨"p", [], some ["-u", "svc"]⟩ ["a"] false = ["sudo", "-u", "svc", "p", "a"] ∧
    buildCmd false ⟨"p", [], Option.none⟩ ["a"] false = ["p", "a"] := by
  constructor
  · have h := (C4_sudo_precedes_path ⟨"p", [], some ["-u", "svc"]⟩ ["a"] false ["-u", "svc"] true).1 rfl
    simpa using h
  · have h := (C4_sudo_precedes_path ⟨"p", [], Option.none⟩ ["a"] false [] false).2.1 rfl
    simpa using h

/-- C5 (code_bug evaluation): in a world where every invocation
succeeds, a direct `generic_call` with the parameters `info` is meant
to build returns the decoded document with status 0, yet `info` itself
raises `TypeError` instead of returning the document, because line 194
subscripts the coroutine object before awaiting it. -/
theorem C5_info_never_returns_document :
    (Smartctl.generic_call wOk sDef ["--info", "/dev/sda"] true).1 = .ok (Json.obj [], 0) ∧
    Smartctl.info wOk sDef "/dev/sda" Option.none
      = (.error (.typeError "coroutine object is not subscriptable"), sDef) := by
  exact ⟨rfl, rfl⟩

/-- C6, counterexample: two runs whose processes exit with different
real statuses (0 and 2) but emit the same unparseable stdout are
indistinguishable through `generic_call` — the decode error does not
preserve the exit status for the caller. -/
theorem C6_counterexample :
    wBad0.spawn (withJ (buildCmd false sDef [] false)) = some ("garbage", 0) ∧
    wBad2.spawn (withJ (buildCmd false sDef [] false)) = some ("garbage", 2) ∧
    Smartctl.generic_call wBad0 sDef [] false = Smartctl.generic_call wBad2 sDef [] false := by
  exact ⟨rfl, rfl, rfl⟩

/-- C6, amended: when stdout does not parse, `generic_call` fails with
a decode error carrying the offending text (not the exit status, which
the error does not record), and `try_generic_call` returns the empty
document with status 1. -/
theorem C6_decode_error_shape (w : World) (s : Smartctl) (params : List String)
    (pass_options : Bool) (out : String) (rc : Int)
    (hp : ¬ s.smartctl_path = "")
    (hs : w.spawn (withJ (buildCmd w.posix s params pass_options)) = some (out, rc))
    (hd : w.parse out = Option.none) :
    (Smartctl.generic_call w s params pass_options).1 = .error (.decodeError out) ∧
    (Smartctl.try_generic_call w s params pass_options).1 = (Json.obj [], 1) := by
  have hg : Smartctl.generic_call w s params pass_options = (.error (.decodeError out), s) := by
    simp [Smartctl.generic_call, hp, Smartctl._exec, hs, hd]
  exact ⟨by rw [hg], by simp [Smartctl.try_generic_call, hg]⟩

/-- C6, witness: decode failure with real exit status 2 observed as a
decode error from `generic_call` and as `({}, 1)` from
`try_generic_call`. -/
theorem C6_decode_error_witness :
    (Smartctl.generic_call wBad2 sDef ["x"] false).1 = .error (.decodeError "garbage") ∧
    (Smartctl.try_generic_call wBad2 sDef ["x"] false).1 = (Json.obj [], 1) :=
  C6_decode_error_shape wBad2 sDef ["x"] false "garbage" 2 (by decide) rfl rfl

/-- Helper: `generic_call` returns its input state (the method body
never assigns to `self`). -/
theorem generic_call_snd (w : World) (s : Smartctl) (ps : List String) (po : Bool) :
    (Smartctl.generic_call w s ps po).2 = s := by
  unfold Smartctl.generic_call
  split <;> rfl

/-- C7: `add_options` is append-only and order-preserving — from a
state with no persistent options, adding `[a]` then `[b]` yields
exactly `[a, b]` (and in general it appends on the right), and an
invocation that passes persistent options places them after the
executable path and before the call parameters, in that order. -/
theorem C7_add_options_append (posix : Bool) (s0 s : Smartctl) (h : s0.options = [])
    (a b : String) (new_options params : List String) :
    ((s0.add_options [a]).add_options [b]).options = [a, b] ∧
    (s.add_options new_options).options = s.options ++ new_options ∧
    buildCmd posix ((s0.add_options [a]).add_options [b]) params true
      = sudoPart posix s0 ++ [s0.smartctl_path] ++ ([a, b] ++ params) := by
  refine ⟨?_, rfl, ?_⟩
  · simp [Smartctl.add_options, h]
  · simp [buildCmd, Smartctl.add_options, sudoPart, h]

/-- C7, witness: two single-option additions from a fresh state place
`a` then `b` between the path and the params. -/
theorem C7_add_options_witness :
    ((sDef.add_options ["-n"]).add_options ["standby"]).options = ["-n", "standby"] ∧
    buildCmd false ((sDef.add_options ["-n"]).add_options ["standby"]) ["x"] true
      = sudoPart false sDef ++ [sDef.smartctl_path] ++ (["-n", "standby"] ++ ["x"]) := by
  have h := C7_add_options_append false sDef sDef rfl "-n" "standby" [] ["x"]
  exact ⟨h.1, h.2.2⟩

/-- C8: `test_start('ata','short','/dev/sda')` performs exactly
`generic_call` on `['-d','ata','-t','short','/dev/sda']` without
passing persistent options and returns its full (document, status)
pair unchanged; when no other part of the command requests JSON
output, the executed vector is that parameter list with `-j` appended
as the last argument. -/
theorem C8_test_start_vector (w : World) (s : Smartctl)
    (h : hasJsonFlag (sudoPart w.posix s ++ [s.smartctl_path]) = false) :
    Smartctl.test_start w s "ata" "short" "/dev/sda"
      = Smartctl.generic_call w s ["-d", "ata", "-t", "short", "/dev/sda"] false ∧
    withJ (buildCmd w.posix s ["-d", "ata", "-t", "short", "/dev/sda"] false)
      = sudoPart w.posix s ++ [s.smartctl_path]
        ++ ["-d", "ata", "-t", "short", "/dev/sda", "-j"] := by
  refine ⟨rfl, ?_⟩
  have hb : buildCmd w.posix s ["-d", "ata", "-t", "short", "/dev/sda"] false
      = (sudoPart w.posix s ++ [s.smartctl_path]) ++ ["-d", "ata", "-t", "short", "/dev/sda"] := by
    simp [buildCmd]
  have hflag : hasJsonFlag (buildCmd w.posix s ["-d", "ata", "-t", "short", "/dev/sda"] false) = false := by
    rw [hb, hasJsonFlag_append, h]
    rfl
  rw [withJ, if_neg (by simp [hflag]), hb]
  simp

/-- C8, witness: with the default configuration, the executed vector is
the path, the five built arguments, then `-j` last. -/
theorem C8_test_start_witness :
    withJ (buildCmd wOk.posix sDef ["-d", "ata", "-t", "short", "/dev/sda"] false)
      = sudoPart wOk.posix sDef ++ [sDef.smartctl_path]
        ++ ["-d", "ata", "-t", "short", "/dev/sda", "-j"] :=
  (C8_test_start_vector wOk sDef (by decide)).2

/-- C9: every invocation leaves the configuration unchanged — the state
returned by `generic_call`, `try_generic_call` and each convenience
operation is the input state — while `add_options` changes exactly the
persistent option list (by appending) and the sudo setter changes
nothing but the sudo setting. -/
theorem C9_config_frame (w : World) (s : Smartctl) (params new_options : List String)
    (pass_options : Bool) (v : PyVal) (disk dt ty : String) (iface : Option String) :
    (Smartctl.generic_call w s params pass_options).2 = s ∧
    (Smartctl.try_generic_call w s params pass_options).2 = s ∧
    (Smartctl.scan w s).2 = s ∧
    (Smartctl.health w s disk iface).2 = s ∧
    (Smartctl.info w s disk iface).2 = s ∧
    (Smartctl.all w s disk iface).2 = s ∧
    (Smartctl.test_stop w s dt disk).2 = s ∧
    (Smartctl.test_start w s dt ty disk).2 = s ∧
    (s.add_options new_options).options = s.options ++ new_options ∧
    (s.add_options new_options).smartctl_path = s.smartctl_path ∧
    (s.add_options new_options)._sudo = s._sudo ∧
    (s.sudo_set v).options = s.options ∧
    (s.sudo_set v).smartctl_path = s.smartctl_path := by
  have ht : (Smartctl.try_generic_call w s params pass_options).2 = s := by
    unfold Smartctl.try_generic_call
    have hg := generic_call_snd w s params pass_options
    rcases hgc : Smartctl.generic_call w s params pass_options with ⟨r, s2⟩
    rw [hgc] at hg
    cases r <;> simpa using hg
  have hsudo : (s.sudo_set v).options = s.options ∧ (s.sudo_set v).smartctl_path = s.smartctl_path := by
    cases v <;> constructor <;> simp [Smartctl.sudo_set, apply_ite]
  exact ⟨generic_call_snd w s params pass_options, ht,
    generic_call_snd w s _ _, generic_call_snd w s _ _, rfl,
    generic_call_snd w s _ _, generic_call_snd w s _ _,
    generic_call_snd w s _ _, rfl, rfl, rfl, hsudo.1, hsudo.2⟩

/-- C10: assigning the empty list to `sudo` enables escalation — the
stored setting is `some []` and the posix command begins with a bare
`sudo` followed immediately by the executable path — while the
non-list falsy values `False`, `None` and `0` disable it, and `True`
normalizes to the default flag list `['-E']`. -/
theorem C10_empty_sudo_list_enables (s : Smartctl) (params : List String) (pass_options : Bool) :
    (s.sudo_set (.list []))._sudo = some [] ∧
    buildCmd true (s.sudo_set (.list [])) params pass_options
      = "sudo" :: s.smartctl_path :: ((if pass_options then s.options else []) ++ params) ∧
    (s.sudo_set (.bool false))._sudo = Option.none ∧
    (s.sudo_set PyVal.none)._sudo = Option.none ∧
    (s.sudo_set (.int 0))._sudo = Option.none ∧
    (s.sudo_set (.bool true))._sudo = some ["-E"] := by
  refine ⟨rfl, ?_, rfl, rfl, rfl, rfl⟩
  simp [buildCmd, sudoPart, Smartctl.sudo_set]
